import Mathlib

/-!
Verification of the model-lifecycle manager of the AI dynamic pricing backend
(src/backend/main.py) against its natural-language specification.

The Python source is shallowly embedded below.  Machine floats are idealised
as rationals; Python's `round(x, n)` (round half to even) is `pyRound`;
Python exceptions become `Except`/`Option` results, and mutation of the
module-level globals `model`, `label_encoders`, `feature_columns` and
`model_metrics` is explicit state passing over `PipelineState`.  The
scikit-learn regressor and the seeded `train_test_split` are opaque external
artifacts; they enter the embedding as parameters (`fit`, `split`), and every
theorem quantifies over them.
-/

/- Batteries marks the rational field operations `@[irreducible]`; the
concrete evaluations below need the kernel to unfold them. -/
attribute [local semireducible] Rat.mul Rat.inv Rat.add Rat.sub

/-- Python `round` to an integer, rounding halves to the nearest even
integer (banker's rounding), on exact rationals. -/
def roundHalfEven (x : ℚ) : ℤ :=
  if x - ⌊x⌋ < 1/2 then ⌊x⌋
  else if 1/2 < x - ⌊x⌋ then ⌊x⌋ + 1
  else if ⌊x⌋ % 2 = 0 then ⌊x⌋ else ⌊x⌋ + 1

/-- Python `round(x, d)` on exact rationals. -/
def pyRound (d : ℕ) (x : ℚ) : ℚ :=
  (roundHalfEven (x * (10 : ℚ) ^ d) : ℚ) / (10 : ℚ) ^ d

theorem roundHalfEven_ge_floor (x : ℚ) : ⌊x⌋ ≤ roundHalfEven x := by
  unfold roundHalfEven
  split
  · exact le_refl _
  · split
    · omega
    · split <;> omega

theorem roundHalfEven_bounds (x : ℚ) (a b : ℤ) (ha : (a : ℚ) ≤ x) (hb : x ≤ (b : ℚ)) :
    a ≤ roundHalfEven x ∧ roundHalfEven x ≤ b := by
  constructor
  · exact le_trans (Int.le_floor.mpr ha) (roundHalfEven_ge_floor x)
  · have hfb : ⌊x⌋ ≤ b := by
      have := Int.floor_le_floor hb
      simpa using this
    unfold roundHalfEven
    split
    · exact hfb
    · have hfrac : (1 : ℚ)/2 ≤ x - ⌊x⌋ := by linarith [not_lt.mp (by assumption)]
      have hlt : ⌊x⌋ < b := by
        rcases lt_or_eq_of_le hfb with h | h
        · exact h
        · exfalso
          have hxf : x ≤ (⌊x⌋ : ℚ) := by rw [h]; exact_mod_cast hb
          have := Int.floor_le x
          linarith
      split
      · omega
      · split <;> omega

/-- Boolean linear order on strings, standing for Python's string ordering
used by `numpy.unique` inside `sklearn.preprocessing.LabelEncoder.fit`. -/
def strLe (a b : String) : Bool := (compare a b).isLE

/-- Insert into a sorted list of strings (helper for `sortStrings`). -/
def insertSorted (x : String) : List String → List String
  | [] => [x]
  | y :: ys => if strLe x y then x :: y :: ys else y :: insertSorted x ys

/-- Ascending sort of a list of strings. -/
def sortStrings : List String → List String
  | [] => []
  | x :: xs => insertSorted x (sortStrings xs)

/-- `LabelEncoder.fit` (via `fit_transform`): the vocabulary is the sorted
list of distinct values observed in the fitted column (`numpy.unique`). -/
def fitEncoder (vs : List String) : List String := sortStrings vs.dedup

theorem mem_insertSorted (a x : String) (l : List String) :
    a ∈ insertSorted x l ↔ a = x ∨ a ∈ l := by
  induction l with
  | nil => simp [insertSorted]
  | cons y ys ih =>
      by_cases h : strLe x y
      · simp [insertSorted, h]
      · simp [insertSorted, h, ih]
        tauto

theorem mem_sortStrings (a : String) (l : List String) :
    a ∈ sortStrings l ↔ a ∈ l := by
  induction l with
  | nil => simp [sortStrings]
  | cons x xs ih => simp [sortStrings, mem_insertSorted, ih]

theorem mem_fitEncoder (a : String) (l : List String) :
    a ∈ fitEncoder l ↔ a ∈ l := by
  simp [fitEncoder, mem_sortStrings]

/-- `LabelEncoder.transform` on a single value: the dense integer code of the
value in the vocabulary, or `none` for an unseen label (scikit-learn raises
`ValueError: y contains previously unseen labels`). -/
def encoderTransform (vocab : List String) (v : String) : Option ℕ :=
  vocab.findIdx? (fun x => x == v)

theorem findIdx_aux_eq_none_iff {α} (p : α → Bool) (l : List α) (i : ℕ) :
    List.findIdx? p l i = none ↔ ∀ a ∈ l, ¬ p a := by
  induction l generalizing i with
  | nil => simp [List.findIdx?]
  | cons x xs ih =>
      by_cases h : p x
      · simp [List.findIdx?, h]
      · simp [List.findIdx?, h, ih]

theorem encoderTransform_eq_none (vocab : List String) (v : String) :
    encoderTransform vocab v = none ↔ v ∉ vocab := by
  unfold encoderTransform
  rw [findIdx_aux_eq_none_iff]
  constructor
  · intro h hv
    exact h v hv (by simp)
  · intro hv a ha
    simp only [beq_iff_eq]
    intro he
    exact hv (he ▸ ha)

/-- The fitted regression artifact: an opaque predictor over the fixed-order
10-entry numeric feature vector, plus its global feature importances
(`model.predict`, `model.feature_importances_`). -/
structure RegModel where
  predict : List ℚ → ℚ
  importances : List ℚ

/-- The process-wide `model` global: `None` at startup, a freshly constructed
but unfitted `RandomForestRegressor` between the assignment on line 334 and a
successful `fit`, or a fitted model.  Calling `predict` on an unfitted model
raises scikit-learn's `NotFittedError`. -/
inductive ModelSlot
  | noModel
  | unfitted
  | fitted (m : RegModel)

/-- The `model_metrics` dictionary built by `train_model` / `load_model`.
`rmse` is omitted: it is `sqrt mse`, determined by `mse` and irrational in
general, and no claim depends on its value. -/
structure Metrics where
  mse : ℚ
  r2_score : ℚ
  model_type : String
  training_samples : ℕ
  feature_importance : List (String × ℚ)
deriving DecidableEq

/-- One record of `dataset.csv` as consumed by the ML pipeline
(`product_id` is present in the file but never read by it). -/
structure MLRow where
  product_name : String
  category : String
  base_price : ℚ
  inventory_level : ℚ
  competitor_avg_price : ℚ
  sales_last_30_days : ℚ
  rating : ℚ
  review_count : ℚ
  season : String
  brand_tier : String
  material_cost : ℚ
  target_price : ℚ
deriving DecidableEq

/-- The in-memory dataset produced by `pd.read_csv('dataset.csv')`. -/
structure MLTable where
  rows : List MLRow
deriving DecidableEq

/-- The module-level globals of main.py that make up the active serving
state: `model`, `label_encoders`, `feature_columns`, `model_metrics`.
`label_encoders` is a dict from column name to fitted encoder vocabulary;
`model_metrics` is `none` while the dict is still empty. -/
structure PipelineState where
  model : ModelSlot
  label_encoders : List (String × List String)
  feature_columns : List String
  model_metrics : Option Metrics

/-- The globals as they are initialised on lines 53-56. -/
def initState : PipelineState :=
  { model := ModelSlot.noModel
    label_encoders := []
    feature_columns := []
    model_metrics := none }

/-- `feature_columns` as assigned in `load_and_preprocess_data`. -/
def featureColumnNames : List String :=
  ["base_price", "inventory_level", "competitor_avg_price",
   "sales_last_30_days", "rating", "review_count", "material_cost",
   "category_encoded", "season_encoded", "brand_tier_encoded"]

/-- An encoder registry holding one vocabulary per categorical column, in
the insertion order of `load_and_preprocess_data`. -/
def standardRegistry (vc vs vb : List String) : List (String × List String) :=
  [("category", vc), ("season", vs), ("brand_tier", vb)]

/-- The registry rebuilt by `load_and_preprocess_data` from the current
dataset: one `LabelEncoder` fit per categorical column. -/
def freshEncoders (df : MLTable) : List (String × List String) :=
  standardRegistry (fitEncoder (df.rows.map (fun r => r.category)))
    (fitEncoder (df.rows.map (fun r => r.season)))
    (fitEncoder (df.rows.map (fun r => r.brand_tier)))

/-- Vocabulary of one column in a registry (`label_encoders[col]`);
empty when the key is absent. -/
def vocabOf (enc : List (String × List String)) (c : String) : List String :=
  ((enc.find? (fun p => p.1 == c)).map (fun p => p.2)).getD []

/-- Training-time code of a value that was just fit (`fit_transform`):
always present, so the index lookup cannot miss. -/
def trainCode (vocab : List String) (v : String) : ℚ :=
  ((encoderTransform vocab v).getD 0 : ℕ)

/-- The encoded feature row `df[feature_columns]` for one record: the 7 raw
numeric features followed by the 3 encoded categorical codes, in the fixed
order of `feature_columns`. -/
def encodedFeatures (enc : List (String × List String)) (r : MLRow) : List ℚ :=
  [r.base_price, r.inventory_level, r.competitor_avg_price,
   r.sales_last_30_days, r.rating, r.review_count, r.material_cost,
   trainCode (vocabOf enc "category") r.category,
   trainCode (vocabOf enc "season") r.season,
   trainCode (vocabOf enc "brand_tier") r.brand_tier]

/-- Mean of a list of rationals (0 on the empty list). -/
def meanQ (l : List ℚ) : ℚ := l.sum / l.length

/-- `sklearn.metrics.mean_squared_error`. -/
def mseQ (ys yhat : List ℚ) : ℚ :=
  meanQ ((List.zip ys yhat).map (fun p => (p.1 - p.2) ^ 2))

/-- `sklearn.metrics.r2_score`, including its degenerate zero-variance
convention (1 when the residual is also zero, else 0). -/
def ssResidual (ys yhat : List ℚ) : ℚ :=
  ((List.zip ys yhat).map (fun p => (p.1 - p.2) ^ 2)).sum

def ssTotal (ys : List ℚ) : ℚ :=
  (ys.map (fun y => (y - meanQ ys) ^ 2)).sum

def sklearnR2 (ys yhat : List ℚ) : ℚ :=
  if ssTotal ys = 0 then (if ssResidual ys yhat = 0 then 1 else 0)
  else 1 - ssResidual ys yhat / ssTotal ys

/-- Evaluation step of `train_model` (lines 337-353): metrics on the
held-out partition, `training_samples` from the train partition. -/
def evalMetrics (m : RegModel) (enc : List (String × List String))
    (trainRows testRows : List MLRow) : Metrics :=
  { mse := mseQ (testRows.map (fun r => r.target_price))
      (testRows.map (fun r => m.predict (encodedFeatures enc r)))
    r2_score := sklearnR2 (testRows.map (fun r => r.target_price))
      (testRows.map (fun r => m.predict (encodedFeatures enc r)))
    model_type := "Random Forest Regressor"
    training_samples := trainRows.length
    feature_importance := List.zip featureColumnNames m.importances }

/-- `train_model` (lines 319-364) as a transition on the module globals.

`fit` stands for `RandomForestRegressor(...).fit` (returning `none` when
fitting raises a numeric error) and `split` for the seeded
`train_test_split`; both are opaque external calls.

The embedding preserves the mutation order of the source:
* `load_and_preprocess_data` reassigns the global `label_encoders` and
  `feature_columns` as soon as the dataset is read (lines 296-315), before
  any training step can still fail;
* `dataset.csv` failing to read (`file = none`) raises before any global is
  touched;
* `train_test_split` raises `ValueError` when a 80/20 split of the rows
  would leave an empty train partition (fewer than 2 rows);
* line 334 rebinds the global `model` to a fresh **unfitted** regressor
  before `fit` runs, so a fit failure leaves that unfitted object active;
* `model_metrics` and the fitted model are only assigned after a successful
  fit (lines 335, 346).
The result is `some metrics` exactly when the run succeeds. -/
def trainModelRun (fit : List (List ℚ) → List ℚ → Option RegModel)
    (split : List MLRow → List MLRow × List MLRow)
    (file : Option MLTable) (st : PipelineState) : Option Metrics × PipelineState :=
  match file with
  | none => (none, st)
  | some df =>
      let enc := freshEncoders df
      let st1 : PipelineState :=
        { st with label_encoders := enc, feature_columns := featureColumnNames }
      if df.rows.length ≤ 1 then (none, st1)
      else
        let st2 : PipelineState := { st1 with model := ModelSlot.unfitted }
        match fit ((split df.rows).1.map (encodedFeatures enc))
            ((split df.rows).1.map (fun r => r.target_price)) with
        | none => (none, st2)
        | some m =>
            let mets := evalMetrics m enc (split df.rows).1 (split df.rows).2
            (some mets,
              { st2 with model := ModelSlot.fitted m, model_metrics := some mets })

/-- The two durable artifacts written by `joblib.dump` on lines 356-357
(`pricing_model.pkl`, `label_encoders.pkl`); `none` models an absent file. -/
structure DiskStore where
  pricing_model : Option RegModel
  encoders : Option (List (String × List String))

/-- The model component currently held by a slot, if fitted. -/
def modelOf : ModelSlot → Option RegModel
  | ModelSlot.fitted m => some m
  | _ => none

/-- `train_model` together with its persistence step: on success the globals
`model` and `label_encoders` (at that point the freshly trained pair) are
dumped to the two artifact files; a failing run writes nothing. -/
def trainModelPersist (fit : List (List ℚ) → List ℚ → Option RegModel)
    (split : List MLRow → List MLRow × List MLRow)
    (file : Option MLTable) (st : PipelineState) (disk : DiskStore) :
    Option Metrics × PipelineState × DiskStore :=
  match (trainModelRun fit split file st).1 with
  | none => (none, (trainModelRun fit split file st).2, disk)
  | some mets =>
      (some mets, (trainModelRun fit split file st).2,
        { pricing_model := modelOf (trainModelRun fit split file st).2.model
          encoders := some (trainModelRun fit split file st).2.label_encoders })

/-- `load_model` (lines 366-395): when both artifact files exist, load them
into the globals, then - if `dataset.csv` exists - call
`load_and_preprocess_data` (which REBUILDS `label_encoders` from the current
dataset, overwriting the just-loaded registry) and recompute `model_metrics`
over the FULL dataset with `training_samples = len(X)`.  Returns the boolean
the source returns. -/
def loadModel (file : Option MLTable) (disk : DiskStore) (st : PipelineState) :
    Bool × PipelineState :=
  match disk.pricing_model, disk.encoders with
  | some m, some encDisk =>
      match file with
      | none =>
          (true, { st with model := ModelSlot.fitted m, label_encoders := encDisk })
      | some df =>
          let enc := freshEncoders df
          let mets : Metrics :=
            { mse := mseQ (df.rows.map (fun r => r.target_price))
                (df.rows.map (fun r => m.predict (encodedFeatures enc r)))
              r2_score := sklearnR2 (df.rows.map (fun r => r.target_price))
                (df.rows.map (fun r => m.predict (encodedFeatures enc r)))
              model_type := "Random Forest Regressor"
              training_samples := df.rows.length
              feature_importance := List.zip featureColumnNames m.importances }
          (true,
            { model := ModelSlot.fitted m, label_encoders := enc
              feature_columns := featureColumnNames, model_metrics := some mets })
  | _, _ => (false, st)

/-- The request body of `/predict` (`ProductInput`, lines 90-101); the
integer fields are idealised as rationals alongside the float fields. -/
structure ProductInput where
  product_name : String
  category : String
  base_price : ℚ
  inventory_level : ℚ
  competitor_avg_price : ℚ
  sales_last_30_days : ℚ
  rating : ℚ
  review_count : ℚ
  season : String
  brand_tier : String
  material_cost : ℚ
deriving DecidableEq

/-- The response body of `/predict` (`PredictionResponse`, lines 120-124). -/
structure PredictionResponse where
  predicted_price : ℚ
  confidence_score : ℚ
  price_change_percentage : ℚ
  recommendation : String
deriving DecidableEq

/-- The failure modes of the prediction paths.  In the source all but
`modelNotLoaded` surface as a catch-all HTTP 400 `Prediction error: ...`;
the embedding keeps the cause structured. -/
inductive PredictError
  | modelNotLoaded
  | encoderMissing (column : String)
  | notFitted
  | unknownCategory (column : String) (value : String)
deriving DecidableEq

/-- Encoding of the three categorical inputs (lines 682-684): a dict lookup
`label_encoders[col]` (KeyError when absent) followed by
`LabelEncoder.transform` (ValueError on an unseen label). -/
def encodeCategoricals (enc : List (String × List String))
    (cat sea tier : String) : Except PredictError (ℚ × ℚ × ℚ) :=
  match enc.find? (fun p => p.1 == "category") with
  | none => Except.error (PredictError.encoderMissing "category")
  | some pc =>
      match encoderTransform pc.2 cat with
      | none => Except.error (PredictError.unknownCategory "category" cat)
      | some c1 =>
          match enc.find? (fun p => p.1 == "season") with
          | none => Except.error (PredictError.encoderMissing "season")
          | some ps =>
              match encoderTransform ps.2 sea with
              | none => Except.error (PredictError.unknownCategory "season" sea)
              | some c2 =>
                  match enc.find? (fun p => p.1 == "brand_tier") with
                  | none => Except.error (PredictError.encoderMissing "brand_tier")
                  | some pb =>
                      match encoderTransform pb.2 tier with
                      | none => Except.error
                          (PredictError.unknownCategory "brand_tier" tier)
                      | some c3 => Except.ok ((c1 : ℚ), (c2 : ℚ), (c3 : ℚ))

/-- The feature vector assembled on lines 687-698, in the fixed order used
at training time. -/
def predictVector (p : ProductInput) (c1 c2 c3 : ℚ) : List ℚ :=
  [p.base_price, p.inventory_level, p.competitor_avg_price,
   p.sales_last_30_days, p.rating, p.review_count, p.material_cost, c1, c2, c3]

/-- `model_metrics.get('r2_score', 0.8)` (lines 664, 715). -/
def r2OrDefault (mm : Option Metrics) : ℚ :=
  match mm with
  | none => 4/5
  | some m => m.r2_score

/-- `round(min(0.95, max(0.6, model_metrics.get('r2_score', 0.8))), 3)`:
the confidence score of both prediction paths. -/
def confidenceScore (mm : Option Metrics) : ℚ :=
  pyRound 3 (min (19/20) (max (3/5) (r2OrDefault mm)))

/-- Recommendation strings of lines 707-712 (inner quotes elided). -/
def incMsg : String := "Price increase recommended due to market conditions"

def decMsg : String := "Price reduction suggested to boost sales"

def optMsg : String := "Current pricing is optimal"

/-- The raw (pre-rounding) price change percentage of line 704. -/
def rawChangePct (predicted basePrice : ℚ) : ℚ :=
  (predicted - basePrice) / basePrice * 100

/-- The `/predict` endpoint `predict_price` (lines 674-725).  The order of
effects follows the source: the `model is None` guard fires first (HTTP
500); the categorical encoding runs before `model.predict`, so an unknown
category raises before a `NotFittedError` can; the recommendation is chosen
from the unrounded percentage, while the response carries
`round(price_change, 2)` and `round(confidence, 3)`. -/
def predictPrice (st : PipelineState) (p : ProductInput) :
    Except PredictError PredictionResponse :=
  match st.model with
  | ModelSlot.noModel => Except.error PredictError.modelNotLoaded
  | ModelSlot.unfitted =>
      match encodeCategoricals st.label_encoders p.category p.season p.brand_tier with
      | Except.error e => Except.error e
      | Except.ok _ => Except.error PredictError.notFitted
  | ModelSlot.fitted m =>
      match encodeCategoricals st.label_encoders p.category p.season p.brand_tier with
      | Except.error e => Except.error e
      | Except.ok (c1, c2, c3) =>
          Except.ok
            { predicted_price := pyRound 2 (m.predict (predictVector p c1 c2 c3))
              confidence_score := confidenceScore st.model_metrics
              price_change_percentage :=
                pyRound 2 (rawChangePct (m.predict (predictVector p c1 c2 c3)) p.base_price)
              recommendation :=
                if rawChangePct (m.predict (predictVector p c1 c2 c3)) p.base_price > 5
                then incMsg
                else if rawChangePct (m.predict (predictVector p c1 c2 c3)) p.base_price < -5
                then decMsg
                else optMsg }

/-- `predict_product_price_internal` (lines 633-672): same model guard,
encoding and confidence formula as `/predict`, returning the rounded
predicted price and confidence for one dataset row. -/
def predictInternal (st : PipelineState) (r : MLRow) :
    Except PredictError (ℚ × ℚ) :=
  match st.model with
  | ModelSlot.noModel => Except.error PredictError.modelNotLoaded
  | ModelSlot.unfitted =>
      match encodeCategoricals st.label_encoders r.category r.season r.brand_tier with
      | Except.error e => Except.error e
      | Except.ok _ => Except.error PredictError.notFitted
  | ModelSlot.fitted m =>
      match encodeCategoricals st.label_encoders r.category r.season r.brand_tier with
      | Except.error e => Except.error e
      | Except.ok (c1, c2, c3) =>
          Except.ok
            (pyRound 2 (m.predict
              [r.base_price, r.inventory_level, r.competitor_avg_price,
               r.sales_last_30_days, r.rating, r.review_count, r.material_cost,
               c1, c2, c3]),
             confidenceScore st.model_metrics)

/-- One entry of the `/products` response (lines 590-627). -/
structure ProductOut where
  product_id : ℕ
  product_name : String
  category : String
  base_price : ℚ
  target_price : ℚ
  inventory_level : ℚ
  rating : ℚ
  review_count : ℚ
  competitor_avg_price : ℚ
  sales_last_30_days : ℚ
  season : String
  brand_tier : String
  material_cost : ℚ
  predicted_price : ℚ
  confidence : ℚ
deriving DecidableEq

/-- The per-row body of the `get_products` loop: on a successful internal
prediction the AI price and confidence are used; on ANY exception the
except-branch (lines 608-627) silently substitutes the recorded
`target_price` and the constant confidence 0.85. -/
def mkProduct (st : PipelineState) (i : ℕ) (r : MLRow) : ProductOut :=
  match predictInternal st r with
  | Except.ok pr =>
      { product_id := i + 1, product_name := r.product_name,
        category := r.category, base_price := r.base_price,
        target_price := r.target_price, inventory_level := r.inventory_level,
        rating := r.rating, review_count := r.review_count,
        competitor_avg_price := r.competitor_avg_price,
        sales_last_30_days := r.sales_last_30_days, season := r.season,
        brand_tier := r.brand_tier, material_cost := r.material_cost,
        predicted_price := pr.1, confidence := pr.2 }
  | Except.error _ =>
      { product_id := i + 1, product_name := r.product_name,
        category := r.category, base_price := r.base_price,
        target_price := r.target_price, inventory_level := r.inventory_level,
        rating := r.rating, review_count := r.review_count,
        competitor_avg_price := r.competitor_avg_price,
        sales_last_30_days := r.sales_last_30_days, season := r.season,
        brand_tier := r.brand_tier, material_cost := r.material_cost,
        predicted_price := r.target_price, confidence := 17/20 }

/-- The `for index, row in df.iterrows()` loop of `get_products`,
with `index` threaded explicitly. -/
def productsFrom (st : PipelineState) : ℕ → List MLRow → List ProductOut
  | _, [] => []
  | i, r :: rest => mkProduct st i r :: productsFrom st (i + 1) rest

/-- The `/products` endpoint `get_products` (lines 579-631), given that
`dataset.csv` reads successfully. -/
def getProducts (st : PipelineState) (df : MLTable) : List ProductOut :=
  productsFrom st 0 df.rows

/-- One cell of an uploaded CSV after `pd.read_csv`: a parsed number, a
string that did not parse as a number, or a missing value (NaN). -/
inductive Cell
  | num (q : ℚ)
  | str (s : String)
  | null
deriving DecidableEq

/-- One record of an uploaded or stored CSV, as an association list from
column name to cell.  Keeping the names on the row lets `pd.concat` align
frames by column name regardless of column order. -/
def CsvRow : Type := List (String × Cell)

instance : DecidableEq CsvRow := by
  unfold CsvRow
  infer_instance

/-- A delimited tabular file in memory: its column list and its records. -/
structure Table where
  cols : List String
  rows : List CsvRow
deriving DecidableEq

/-- `required_columns` of `upload_data` (lines 748-752). -/
def requiredColumns : List String :=
  ["product_id", "product_name", "category", "base_price", "inventory_level",
   "competitor_avg_price", "sales_last_30_days", "rating", "review_count",
   "season", "brand_tier", "material_cost", "target_price"]

/-- `numeric_columns` of the validation block (lines 793-794). -/
def numericColumns : List String :=
  ["base_price", "inventory_level", "competitor_avg_price",
   "sales_last_30_days", "rating", "review_count", "material_cost",
   "target_price"]

/-- The columns checked for negative values (lines 802-803).  Note that
`sales_last_30_days` and `rating` are absent from this list. -/
def nonNegColumns : List String :=
  ["base_price", "inventory_level", "competitor_avg_price",
   "review_count", "material_cost", "target_price"]

/-- Cell of a row under a column name; `Cell.null` (NaN) when absent. -/
def cellAt (r : CsvRow) (c : String) : Cell :=
  ((r.find? (fun p => p.1 == c)).map (fun p => p.2)).getD Cell.null

/-- The pandas Series `df[c]`. -/
def colCells (t : Table) (c : String) : List Cell :=
  t.rows.map (fun r => cellAt r c)

/-- `(series < q).any()` on a pandas Series: comparing a string cell with a
number raises `TypeError` (the column read as object dtype); NaN compares
false. -/
def seriesAnyLt (cells : List Cell) (q : ℚ) : Except String Bool :=
  if cells.any (fun c => match c with | Cell.str _ => true | _ => false) then
    Except.error "TypeError"
  else
    Except.ok (cells.any (fun c => match c with
      | Cell.num x => decide (x < q)
      | _ => false))

/-- `(series > q).any()`, same raising behaviour. -/
def seriesAnyGt (cells : List Cell) (q : ℚ) : Except String Bool :=
  if cells.any (fun c => match c with | Cell.str _ => true | _ => false) then
    Except.error "TypeError"
  else
    Except.ok (cells.any (fun c => match c with
      | Cell.num x => decide (q < x)
      | _ => false))

/-- The fixed text the source uses to report a raise inside the validation
try-block (`f"Data type validation error: ..."`, line 822; the dynamic
exception text is collapsed to its kind). -/
def dtErrMsg : String := "Data type validation error: TypeError"

/-- The per-column body of the numeric validation loop (lines 796-810).
`pd.to_numeric(df[col], errors='coerce')` on line 799 cannot raise and its
result is DISCARDED, so it contributes nothing here; only the negative-value
check (for columns in `nonNegColumns`) and the rating range check run.
Returns the messages appended for this column and whether a `TypeError`
aborted the whole try-block. -/
def checkColumn (t : Table) (c : String) : List String × Bool :=
  if c ∈ t.cols then
    match (if c ∈ nonNegColumns then seriesAnyLt (colCells t c) 0 else Except.ok false) with
    | Except.error _ => ([dtErrMsg], true)
    | Except.ok neg =>
        let negErrs := if neg then ["Column " ++ c ++ " contains negative values"] else []
        if c == "rating" then
          match seriesAnyGt (colCells t c) 5 with
          | Except.error _ => (negErrs ++ [dtErrMsg], true)
          | Except.ok hi =>
              match seriesAnyLt (colCells t c) 0 with
              | Except.error _ => (negErrs ++ [dtErrMsg], true)
              | Except.ok lo =>
                  (negErrs ++
                    (if hi || lo then ["Column rating should be between 0 and 5"] else []),
                   false)
        else (negErrs, false)
  else ([], false)

/-- The null check of lines 813-819 (runs after the numeric loop, still
inside the same try-block). -/
def nullCheckErrors (t : Table) : List String :=
  match requiredColumns.filter
      (fun c => (colCells t c).any (fun x => x == Cell.null)) with
  | [] => []
  | nulls => ["Null values found in columns: " ++ String.intercalate ", " nulls]

/-- The numeric validation loop over a worklist of columns; on completion
the null check runs (it is inside the same try-block); a `TypeError`
mid-loop aborts the block, keeping the messages collected so far plus the
catch-all message, and SKIPS the remaining columns and the null check. -/
def tryBlockGo (t : Table) : List String → List String
  | [] => nullCheckErrors t
  | c :: rest =>
      match checkColumn t c with
      | (errs, true) => errs
      | (errs, false) => errs ++ tryBlockGo t rest

/-- The whole try-block of lines 791-822. -/
def tryBlockErrors (t : Table) : List String :=
  tryBlockGo t numericColumns

/-- `validation_errors` as accumulated by lines 784-822. -/
def validationErrors (t : Table) : List String :=
  (if t.rows.isEmpty then ["CSV file is empty"] else []) ++ tryBlockErrors t

/-- `sorted(list(required_columns_set - uploaded_columns))` (lines 767-772). -/
def missingColumns (t : Table) : List String :=
  sortStrings (requiredColumns.filter (fun c => decide (c ∉ t.cols)))

/-- `set(a) == set(b)` on column lists. -/
def sameColSet (a b : List String) : Prop :=
  (∀ c ∈ a, c ∈ b) ∧ (∀ c ∈ b, c ∈ a)

instance (a b : List String) : Decidable (sameColSet a b) := by
  unfold sameColSet
  infer_instance

/-- `uploaded_df[existing_data.columns]` (line 847): reorder the uploaded
frame to the existing column list, dropping extra columns; raises
`KeyError` (`none`) when the existing frame has a column the upload lacks. -/
def reindexTable (cols : List String) (t : Table) : Option Table :=
  if ∀ c ∈ cols, c ∈ t.cols then
    some { cols := cols, rows := t.rows.map (fun r => cols.map (fun c => (c, cellAt r c))) }
  else none

/-- The concatenation step of lines 834-851, before duplicate removal. -/
structure MergePlan where
  cols : List String
  rows : List CsvRow
  existingCount : ℕ
deriving DecidableEq

/-- Build the combined frame: no existing dataset means the upload stands
alone; otherwise `pd.concat([existing, uploaded])`, reindexing the upload
first when the column sets differ.  `none` is the KeyError path. -/
def mergePlan (file : Option Table) (batch : Table) : Option MergePlan :=
  match file with
  | none => some { cols := batch.cols, rows := batch.rows, existingCount := 0 }
  | some ex =>
      if sameColSet ex.cols batch.cols then
        some { cols := ex.cols, rows := ex.rows ++ batch.rows,
               existingCount := ex.rows.length }
      else
        match reindexTable ex.cols batch with
        | none => none
        | some b =>
            some { cols := ex.cols, rows := ex.rows ++ b.rows,
                   existingCount := ex.rows.length }

/-- `drop_duplicates(subset=key, keep='last')`: keep a record iff its key
does not occur again later; the kept records preserve their order. -/
def keepLastBy {α β : Type} [DecidableEq β] (k : α → β) : List α → List α
  | [] => []
  | a :: as => if k a ∈ as.map k then keepLastBy k as else a :: keepLastBy k as

/-- The duplicate key of the merge: the `product_id` cell. -/
def rowPid (r : CsvRow) : Option Cell :=
  (r.find? (fun p => p.1 == "product_id")).map (fun p => p.2)

/-- Lines 853-859: duplicates are removed by `product_id`, keep-last, but
only when that column exists in the combined frame. -/
def mergedRows (p : MergePlan) : List CsvRow :=
  if "product_id" ∈ p.cols then keepLastBy rowPid p.rows else p.rows

/-- `upload_stats` of the response (lines 872-877 / 886-891). -/
structure UploadStats where
  new_records : ℕ
  total_records : ℕ
  duplicates_removed : ℕ
  existing_records : ℕ
deriving DecidableEq

/-- Outcome of `/upload-data`: the column-diff rejection (HTTP 400 with the
missing list), the row-validation rejection (HTTP 400 with all collected
messages), the KeyError path of the column re-ordering (HTTP 500), or
success - which still carries `retraining_status: failed` (`none`) when the
automatic retraining raised. -/
inductive UploadOutcome
  | missingCols (missing : List String)
  | validationFailed (errors : List String)
  | reindexError
  | success (stats : UploadStats) (retrainMetrics : Option Metrics)
deriving DecidableEq

/-- The `/upload-data` endpoint `upload_data` (lines 743-904) for a batch
that parsed as a CSV.  `retrain` is the `train_model()` call of line 867,
fed with the just-saved merged dataset; it is a parameter so that the
endpoint logic stays independent of the regressor.  Returns the outcome,
the new durable `dataset.csv`, and the module globals after the call. -/
def uploadData (retrain : Table → PipelineState → Option Metrics × PipelineState)
    (file : Option Table) (st : PipelineState) (batch : Table) :
    UploadOutcome × Option Table × PipelineState :=
  if missingColumns batch = [] then
    if validationErrors batch = [] then
      match mergePlan file batch with
      | none => (UploadOutcome.reindexError, file, st)
      | some plan =>
          (UploadOutcome.success
            { new_records := batch.rows.length
              total_records := (mergedRows plan).length
              duplicates_removed := plan.rows.length - (mergedRows plan).length
              existing_records := plan.existingCount }
            (retrain { cols := plan.cols, rows := mergedRows plan } st).1,
           some { cols := plan.cols, rows := mergedRows plan },
           (retrain { cols := plan.cols, rows := mergedRows plan } st).2)
    else (UploadOutcome.validationFailed (validationErrors batch), file, st)
  else (UploadOutcome.missingCols (missingColumns batch), file, st)

/-- Read a numeric cell (helper for re-parsing a stored dataset). -/
def cellNum : Cell → Option ℚ
  | Cell.num q => some q
  | _ => none

/-- Read a string cell (helper for re-parsing a stored dataset). -/
def cellStr : Cell → Option String
  | Cell.str s => some s
  | _ => none

/-- Parse one stored record into the typed shape the ML pipeline consumes. -/
def rowToML (r : CsvRow) : Option MLRow :=
  match cellStr (cellAt r "product_name"), cellStr (cellAt r "category"),
      cellNum (cellAt r "base_price"), cellNum (cellAt r "inventory_level"),
      cellNum (cellAt r "competitor_avg_price"),
      cellNum (cellAt r "sales_last_30_days"), cellNum (cellAt r "rating"),
      cellNum (cellAt r "review_count"), cellStr (cellAt r "season"),
      cellStr (cellAt r "brand_tier"), cellNum (cellAt r "material_cost"),
      cellNum (cellAt r "target_price") with
  | some pn, some ca, some bp, some il, some cap, some sl, some ra, some rc,
    some se, some bt, some mc, some tp =>
      some { product_name := pn, category := ca, base_price := bp,
             inventory_level := il, competitor_avg_price := cap,
             sales_last_30_days := sl, rating := ra, review_count := rc,
             season := se, brand_tier := bt, material_cost := mc,
             target_price := tp }
  | _, _, _, _, _, _, _, _, _, _, _, _ => none

/-- Re-reading the saved merged dataset for the retraining step
(`pd.read_csv('dataset.csv')` inside `train_model`), parsed into the typed
table; `none` when some record does not carry the typed fields. -/
def toMLTable (t : Table) : Option MLTable :=
  (t.rows.mapM rowToML).map (fun rs => { rows := rs })

deriving instance DecidableEq for Except

theorem confidenceScore_band (mm : Option Metrics) :
    3/5 ≤ confidenceScore mm ∧ confidenceScore mm ≤ 19/20 := by
  have h1 : (3/5 : ℚ) ≤ min (19/20) (max (3/5) (r2OrDefault mm)) :=
    le_min (by norm_num) (le_max_left _ _)
  have h2 : min (19/20 : ℚ) (max (3/5) (r2OrDefault mm)) ≤ 19/20 := min_le_left _ _
  have hb := roundHalfEven_bounds
      (min (19/20 : ℚ) (max (3/5) (r2OrDefault mm)) * (10 : ℚ) ^ 3) 600 950
      (by push_cast; nlinarith) (by push_cast; nlinarith)
  obtain ⟨hl, hr⟩ := hb
  have hl' : (600 : ℚ) ≤
      (roundHalfEven (min (19/20 : ℚ) (max (3/5) (r2OrDefault mm)) * (10 : ℚ) ^ 3) : ℚ) := by
    exact_mod_cast hl
  have hr' : (roundHalfEven (min (19/20 : ℚ) (max (3/5) (r2OrDefault mm)) * (10 : ℚ) ^ 3) : ℚ)
      ≤ 950 := by exact_mod_cast hr
  unfold confidenceScore pyRound
  constructor
  · rw [le_div_iff₀ (by norm_num : (0:ℚ) < (10:ℚ)^3)]
    norm_num at hl' ⊢
    linarith
  · rw [div_le_iff₀ (by norm_num : (0:ℚ) < (10:ℚ)^3)]
    norm_num at hr' ⊢
    linarith

/-- On any `Except.ok` result of the `/predict` endpoint the confidence
score is exactly the shared clamped-r2 formula. -/
theorem predictPrice_ok_confidence (st : PipelineState) (p : ProductInput)
    (r : PredictionResponse) (h : predictPrice st p = Except.ok r) :
    r.confidence_score = confidenceScore st.model_metrics := by
  unfold predictPrice at h
  rcases hm : st.model with _ | _ | m <;> rw [hm] at h
  · cases h
  · rcases he : encodeCategoricals st.label_encoders p.category p.season p.brand_tier
      with e | v <;> rw [he] at h <;> simp at h
  · rcases he : encodeCategoricals st.label_encoders p.category p.season p.brand_tier
      with e | v
    · rw [he] at h; cases h
    · rcases v with ⟨c1, c2, c3⟩
      rw [he] at h
      cases h
      rfl

/-- Claim C5: for every successful prediction the returned confidence score
lies in the closed interval [0.6, 0.95], whatever the active metrics (and
in particular whatever their r2_score) are. -/
theorem c5_confidence_in_band (st : PipelineState) (p : ProductInput)
    (r : PredictionResponse) (h : predictPrice st p = Except.ok r) :
    3/5 ≤ r.confidence_score ∧ r.confidence_score ≤ 19/20 := by
  rw [predictPrice_ok_confidence st p r h]
  exact confidenceScore_band st.model_metrics

/-- A 10-feature predictor that returns the first feature (the base price);
stands for one possible fitted regressor. -/
def sampleModel : RegModel :=
  { predict := fun v => v.headI, importances := [] }

def sampleEncoders : List (String × List String) :=
  standardRegistry ["a"] ["s"] ["b"]

def sampleMetrics : Metrics :=
  { mse := 0, r2_score := 1/2, model_type := "Random Forest Regressor",
    training_samples := 1, feature_importance := [] }

def sampleState : PipelineState :=
  { model := ModelSlot.fitted sampleModel, label_encoders := sampleEncoders,
    feature_columns := featureColumnNames, model_metrics := some sampleMetrics }

def sampleInput : ProductInput :=
  { product_name := "widget", category := "a", base_price := 100,
    inventory_level := 1, competitor_avg_price := 100, sales_last_30_days := 1,
    rating := 4, review_count := 1, season := "s", brand_tier := "b",
    material_cost := 5 }

def sampleResponse : PredictionResponse :=
  { predicted_price := 100, confidence_score := 3/5,
    price_change_percentage := 0, recommendation := optMsg }

theorem c5_confidence_in_band_witness :
    3/5 ≤ sampleResponse.confidence_score ∧ sampleResponse.confidence_score ≤ 19/20 :=
  c5_confidence_in_band sampleState sampleInput sampleResponse (by decide)

theorem encodeCategoricals_standard (vc vs vb : List String) (cat sea tier : String) :
    encodeCategoricals (standardRegistry vc vs vb) cat sea tier =
      match encoderTransform vc cat with
      | none => Except.error (PredictError.unknownCategory "category" cat)
      | some c1 =>
          match encoderTransform vs sea with
          | none => Except.error (PredictError.unknownCategory "season" sea)
          | some c2 =>
              match encoderTransform vb tier with
              | none => Except.error (PredictError.unknownCategory "brand_tier" tier)
              | some c3 => Except.ok ((c1 : ℚ), (c2 : ℚ), (c3 : ℚ)) := by
  rfl

/-- Claim C2: with an active (fitted) model and the standard three-column
encoder registry, any prediction request whose category, season or
brand_tier value is outside the corresponding vocabulary fails with an
unknown-category error - it is never mapped to a default code and no price
is returned. -/
theorem c2_unknown_category_fails (st : PipelineState) (p : ProductInput)
    (m : RegModel) (vc vs vb : List String)
    (hm : st.model = ModelSlot.fitted m)
    (he : st.label_encoders = standardRegistry vc vs vb)
    (hunk : p.category ∉ vc ∨ p.season ∉ vs ∨ p.brand_tier ∉ vb) :
    ∃ col v, predictPrice st p = Except.error (PredictError.unknownCategory col v) := by
  unfold predictPrice
  rw [hm, he, encodeCategoricals_standard]
  rcases hc : encoderTransform vc p.category with _ | c1
  · exact ⟨"category", p.category, rfl⟩
  · have hcm : p.category ∈ vc := by
      by_contra hn
      rw [(encoderTransform_eq_none vc p.category).mpr hn] at hc
      cases hc
    rcases hs : encoderTransform vs p.season with _ | c2
    · exact ⟨"season", p.season, rfl⟩
    · have hsm : p.season ∈ vs := by
        by_contra hn
        rw [(encoderTransform_eq_none vs p.season).mpr hn] at hs
        cases hs
      rcases ht : encoderTransform vb p.brand_tier with _ | c3
      · exact ⟨"brand_tier", p.brand_tier, rfl⟩
      · have htm : p.brand_tier ∈ vb := by
          by_contra hn
          rw [(encoderTransform_eq_none vb p.brand_tier).mpr hn] at ht
          cases ht
        exact absurd hunk (by simp [hcm, hsm, htm])

/-- A request whose category was never seen by the active encoders. -/
def unknownCatInput : ProductInput :=
  { sampleInput with category := "unseen" }

theorem c2_unknown_category_fails_witness :
    ∃ col v, predictPrice sampleState unknownCatInput =
      Except.error (PredictError.unknownCategory col v) :=
  c2_unknown_category_fails sampleState unknownCatInput sampleModel
    ["a"] ["s"] ["b"] rfl rfl (Or.inl (by decide))

/-- Claim C4 (amended): for every successful prediction the returned
`price_change_percentage` is the raw percentage (predicted - base_price) /
base_price * 100 ROUNDED to two decimals, and the recommendation is chosen
from the UNROUNDED percentage: increase exactly when it is strictly above
5, decrease exactly when strictly below -5, optimal otherwise (so ties at
exactly +-5 are optimal). -/
theorem c4_percentage_and_recommendation (st : PipelineState) (p : ProductInput)
    (m : RegModel) (c1 c2 c3 : ℚ) (r : PredictionResponse)
    (hm : st.model = ModelSlot.fitted m)
    (he : encodeCategoricals st.label_encoders p.category p.season p.brand_tier
      = Except.ok (c1, c2, c3))
    (hr : predictPrice st p = Except.ok r) :
    r.price_change_percentage =
      pyRound 2 (rawChangePct (m.predict (predictVector p c1 c2 c3)) p.base_price) ∧
    (r.recommendation = incMsg ↔
      rawChangePct (m.predict (predictVector p c1 c2 c3)) p.base_price > 5) ∧
    (r.recommendation = decMsg ↔
      rawChangePct (m.predict (predictVector p c1 c2 c3)) p.base_price < -5) ∧
    (r.recommendation = optMsg ↔
      (-5 ≤ rawChangePct (m.predict (predictVector p c1 c2 c3)) p.base_price ∧
       rawChangePct (m.predict (predictVector p c1 c2 c3)) p.base_price ≤ 5)) := by
  unfold predictPrice at hr
  rw [hm, he] at hr
  cases hr
  dsimp only
  by_cases h5 : rawChangePct (m.predict (predictVector p c1 c2 c3)) p.base_price > 5
  · rw [if_pos h5]
    refine ⟨rfl, ?_, ?_, ?_⟩
    · exact iff_of_true rfl h5
    · exact iff_of_false (by decide) (by linarith)
    · refine iff_of_false (by decide) ?_
      rintro ⟨h1, h2⟩
      linarith
  · rw [if_neg h5]
    by_cases hneg : rawChangePct (m.predict (predictVector p c1 c2 c3)) p.base_price < -5
    · rw [if_pos hneg]
      refine ⟨rfl, ?_, ?_, ?_⟩
      · exact iff_of_false (by decide) h5
      · exact iff_of_true rfl hneg
      · refine iff_of_false (by decide) ?_
        rintro ⟨h1, h2⟩
        linarith
    · rw [if_neg hneg]
      refine ⟨rfl, ?_, ?_, ?_⟩
      · exact iff_of_false (by decide) h5
      · exact iff_of_false (by decide) hneg
      · exact iff_of_true rfl ⟨by linarith, by linarith⟩

theorem c4_percentage_and_recommendation_witness :
    sampleResponse.price_change_percentage =
      pyRound 2 (rawChangePct (sampleModel.predict (predictVector sampleInput 0 0 0))
        sampleInput.base_price) ∧
    (sampleResponse.recommendation = incMsg ↔
      rawChangePct (sampleModel.predict (predictVector sampleInput 0 0 0))
        sampleInput.base_price > 5) ∧
    (sampleResponse.recommendation = decMsg ↔
      rawChangePct (sampleModel.predict (predictVector sampleInput 0 0 0))
        sampleInput.base_price < -5) ∧
    (sampleResponse.recommendation = optMsg ↔
      (-5 ≤ rawChangePct (sampleModel.predict (predictVector sampleInput 0 0 0))
        sampleInput.base_price ∧
       rawChangePct (sampleModel.predict (predictVector sampleInput 0 0 0))
        sampleInput.base_price ≤ 5)) :=
  c4_percentage_and_recommendation sampleState sampleInput sampleModel 0 0 0
    sampleResponse rfl (by decide) (by decide)

/-- A model whose prediction at any input is 105.004: together with
`base_price = 100` the raw change percentage is 5.004, which the response
rounds down to 5.0 while still recommending an increase. -/
def pctModel : RegModel :=
  { predict := fun _ => 26251/250, importances := [] }

def pctState : PipelineState :=
  { model := ModelSlot.fitted pctModel, label_encoders := sampleEncoders,
    feature_columns := featureColumnNames, model_metrics := none }

/-- Claim C4 counterexample: at `base_price = 100` and raw model output
105.004, the raw percentage is 5.004 but the returned
`price_change_percentage` is 5.0 (rounded to two decimals), so the response
field does NOT equal (predicted - base_price) / base_price * 100; moreover
the recommendation is the increase message even though the returned
percentage is not strictly greater than 5. -/
theorem c4_counterexample :
    predictPrice pctState sampleInput = Except.ok
      { predicted_price := 105, confidence_score := 4/5,
        price_change_percentage := 5, recommendation := incMsg } ∧
    rawChangePct (26251/250) sampleInput.base_price = 1251/250 ∧
    ¬ ((5 : ℚ) = 1251/250) ∧
    ¬ ((5 : ℚ) > 5) := by
  exact ⟨by decide, by decide, by decide, by norm_num⟩

theorem productsFrom_length (st : PipelineState) (rows : List MLRow) :
    ∀ n, (productsFrom st n rows).length = rows.length := by
  induction rows with
  | nil => intro n; rfl
  | cons r rest ih =>
      intro n
      simp [productsFrom, ih]

theorem productsFrom_get (st : PipelineState) (rows : List MLRow) :
    ∀ n i, (productsFrom st n rows).get? i =
      (rows.get? i).map (fun r => mkProduct st (n + i) r) := by
  induction rows with
  | nil => intro n i; cases i <;> rfl
  | cons r rest ih =>
      intro n i
      cases i with
      | zero => simp [productsFrom]
      | succ j =>
          simp only [productsFrom, List.get?_cons_succ, ih (n + 1) j]
          congr 1
          funext x
          congr 1
          omega

/-- Claim C3: `/products` returns one entry per dataset row, and every row
whose internal prediction fails - for any reason - is still returned, with
the recorded `target_price` silently substituted for the predicted price
and the fixed confidence 0.85, instead of the failure being surfaced. -/
theorem c3_silent_fallback (st : PipelineState) (df : MLTable) :
    (getProducts st df).length = df.rows.length ∧
    ∀ i r e, df.rows.get? i = some r → predictInternal st r = Except.error e →
      ∃ po, (getProducts st df).get? i = some po ∧
        po.predicted_price = r.target_price ∧ po.confidence = 17/20 ∧
        po.product_id = i + 1 ∧ po.product_name = r.product_name := by
  constructor
  · exact productsFrom_length st df.rows 0
  · intro i r e hrow herr
    refine ⟨mkProduct st i r, ?_, ?_⟩
    · rw [getProducts, productsFrom_get st df.rows 0 i, hrow]
      simp
    · unfold mkProduct
      rw [herr]
      exact ⟨rfl, rfl, rfl, rfl⟩

/-- A one-row dataset whose single row carries a category the active
encoders never saw, so its internal prediction fails. -/
def unseenRow : MLRow :=
  { product_name := "odd", category := "unseen", base_price := 10,
    inventory_level := 1, competitor_avg_price := 10, sales_last_30_days := 1,
    rating := 4, review_count := 1, season := "s", brand_tier := "b",
    material_cost := 5, target_price := 42 }

def unseenTable : MLTable := { rows := [unseenRow] }

theorem c3_silent_fallback_witness :
    (getProducts sampleState unseenTable).length = unseenTable.rows.length ∧
    ∃ po, (getProducts sampleState unseenTable).get? 0 = some po ∧
      po.predicted_price = unseenRow.target_price ∧ po.confidence = 17/20 ∧
      po.product_id = 0 + 1 ∧ po.product_name = unseenRow.product_name :=
  ⟨(c3_silent_fallback sampleState unseenTable).1,
   (c3_silent_fallback sampleState unseenTable).2 0 unseenRow
     (PredictError.unknownCategory "category" "unseen") (by decide) (by decide)⟩

theorem trainModelRun_fail_preserves
    (fit : List (List ℚ) → List ℚ → Option RegModel)
    (split : List MLRow → List MLRow × List MLRow)
    (file : Option MLTable) (st : PipelineState)
    (h : (trainModelRun fit split file st).1 = none) :
    (trainModelRun fit split file st).2.model_metrics = st.model_metrics := by
  cases file with
  | none => rfl
  | some df =>
      by_cases hlen : df.rows.length ≤ 1
      · simp [trainModelRun, hlen]
      · rcases hfit : fit ((split df.rows).1.map (encodedFeatures (freshEncoders df)))
            ((split df.rows).1.map (fun r => r.target_price)) with _ | m
        · simp [trainModelRun, hlen, hfit]
        · exfalso
          simp [trainModelRun, hlen, hfit] at h

theorem trainModelRun_success_shape
    (fit : List (List ℚ) → List ℚ → Option RegModel)
    (split : List MLRow → List MLRow × List MLRow)
    (df : MLTable) (st : PipelineState) (mets : Metrics)
    (h : (trainModelRun fit split (some df) st).1 = some mets) :
    ∃ m, (trainModelRun fit split (some df) st).2.model = ModelSlot.fitted m ∧
      (trainModelRun fit split (some df) st).2.label_encoders = freshEncoders df := by
  by_cases hlen : df.rows.length ≤ 1
  · simp [trainModelRun, hlen] at h
  · rcases hfit : fit ((split df.rows).1.map (encodedFeatures (freshEncoders df)))
        ((split df.rows).1.map (fun r => r.target_price)) with _ | m
    · simp [trainModelRun, hlen, hfit] at h
    · exact ⟨m, by simp [trainModelRun, hlen, hfit],
        by simp [trainModelRun, hlen, hfit]⟩

/-- Claim C1 (amended): on every failing run of `train_model` the
previously active METRICS remain in effect, and a run that fails because
the dataset cannot be read leaves the whole active triple untouched; the
model and encoder registry, however, are not protected on the other
failing paths (see the counterexample: a fit failure leaves a freshly
rebuilt encoder registry and an unfitted model in the active slots). -/
theorem c1_failed_training_keeps_metrics
    (fit : List (List ℚ) → List ℚ → Option RegModel)
    (split : List MLRow → List MLRow × List MLRow)
    (file : Option MLTable) (st : PipelineState)
    (h : (trainModelRun fit split file st).1 = none) :
    (trainModelRun fit split file st).2.model_metrics = st.model_metrics ∧
    (file = none → (trainModelRun fit split file st).2 = st) := by
  refine ⟨trainModelRun_fail_preserves fit split file st h, ?_⟩
  intro hf
  subst hf
  rfl

/-- A regressor whose fit always raises (a numeric error inside
`RandomForestRegressor.fit`). -/
def fitFail : List (List ℚ) → List ℚ → Option RegModel := fun _ _ => none

/-- A split placing every row in the train partition. -/
def splitAll : List MLRow → List MLRow × List MLRow := fun rs => (rs, [])

def mlRowA : MLRow :=
  { product_name := "p1", category := "a", base_price := 10,
    inventory_level := 1, competitor_avg_price := 10, sales_last_30_days := 1,
    rating := 4, review_count := 1, season := "s", brand_tier := "b",
    material_cost := 5, target_price := 12 }

def mlRowB : MLRow :=
  { mlRowA with product_name := "p2", base_price := 20, target_price := 22 }

def dfAB : MLTable := { rows := [mlRowA, mlRowB] }

def oldMetrics : Metrics :=
  { mse := 1, r2_score := 7/10, model_type := "Random Forest Regressor",
    training_samples := 5, feature_importance := [] }

/-- A previously published active triple: a fitted model, a registry fit on
an older dataset (vocabularies x, y, z), and its metrics. -/
def oldState : PipelineState :=
  { model := ModelSlot.fitted sampleModel,
    label_encoders := standardRegistry ["x"] ["y"] ["z"],
    feature_columns := featureColumnNames, model_metrics := some oldMetrics }

theorem c1_failed_training_keeps_metrics_witness :
    (trainModelRun fitFail splitAll (some dfAB) oldState).2.model_metrics =
      oldState.model_metrics ∧
    ((some dfAB : Option MLTable) = none →
      (trainModelRun fitFail splitAll (some dfAB) oldState).2 = oldState) :=
  c1_failed_training_keeps_metrics fitFail splitAll (some dfAB) oldState (by decide)

/-- Claim C1 counterexample: a training run over a readable two-row dataset
whose fit step raises.  The run fails (`none`), yet the active encoder
registry has been replaced by the one rebuilt from the new dataset and the
active model slot now holds the fresh unfitted regressor - only the metrics
component of the previously active triple survives. -/
theorem c1_counterexample :
    (trainModelRun fitFail splitAll (some dfAB) oldState).1 = none ∧
    (trainModelRun fitFail splitAll (some dfAB) oldState).2.label_encoders ≠
      oldState.label_encoders ∧
    (trainModelRun fitFail splitAll (some dfAB) oldState).2.model = ModelSlot.unfitted ∧
    oldState.model ≠ ModelSlot.unfitted ∧
    (trainModelRun fitFail splitAll (some dfAB) oldState).2.model_metrics =
      oldState.model_metrics := by
  refine ⟨by decide, by decide, rfl, ?_, by decide⟩
  intro h
  exact ModelSlot.noConfusion h

/-- The metrics-independent part of a prediction response: price, change
percentage and recommendation. -/
def priceView (r : PredictionResponse) : ℚ × ℚ × String :=
  (r.predicted_price, r.price_change_percentage, r.recommendation)

/-- Two states sharing model and encoder registry produce the same price,
percentage and recommendation for every request; the metrics influence only
the confidence score. -/
theorem predictPrice_ignores_metrics (st st' : PipelineState) (p : ProductInput)
    (hm : st'.model = st.model) (he : st'.label_encoders = st.label_encoders) :
    (predictPrice st' p).map priceView = (predictPrice st p).map priceView := by
  unfold predictPrice
  rw [hm, he]
  rcases hsm : st.model with _ | _ | m
  · rfl
  · rfl
  · rcases henc : encodeCategoricals st.label_encoders p.category p.season p.brand_tier
      with e | v
    · rfl
    · rcases v with ⟨c1, c2, c3⟩
      rfl

/-- Claim C10 (amended): after a successful `train_model` run, reloading
the persisted artifacts with `load_model` restores the identical model and
encoder registry, so the predicted price, change percentage and
recommendation agree with the freshly trained triple on every request.
The metrics, however, are recomputed over the FULL dataset at load time
(train/test-split metrics versus whole-dataset metrics), so the metrics
component - and with it the derived confidence score - need not match
(see the counterexample). -/
theorem c10_round_trip_predictions
    (fit : List (List ℚ) → List ℚ → Option RegModel)
    (split : List MLRow → List MLRow × List MLRow)
    (df : MLTable) (st st0 : PipelineState) (disk : DiskStore)
    (h : (trainModelPersist fit split (some df) st disk).1 ≠ none) :
    (loadModel (some df) (trainModelPersist fit split (some df) st disk).2.2 st0).1 = true ∧
    (loadModel (some df) (trainModelPersist fit split (some df) st disk).2.2 st0).2.model =
      (trainModelPersist fit split (some df) st disk).2.1.model ∧
    (loadModel (some df) (trainModelPersist fit split (some df) st disk).2.2 st0).2.label_encoders =
      (trainModelPersist fit split (some df) st disk).2.1.label_encoders ∧
    ∀ p, (predictPrice (loadModel (some df)
        (trainModelPersist fit split (some df) st disk).2.2 st0).2 p).map priceView =
      (predictPrice (trainModelPersist fit split (some df) st disk).2.1 p).map priceView := by
  rcases htr : (trainModelRun fit split (some df) st).1 with _ | mets
  · exfalso
    apply h
    simp [trainModelPersist, htr]
  · obtain ⟨m, hmod, henc⟩ := trainModelRun_success_shape fit split df st mets htr
    have hdisk : (trainModelPersist fit split (some df) st disk).2.2 =
        { pricing_model := some m,
          encoders := some ((trainModelRun fit split (some df) st).2.label_encoders) } := by
      simp [trainModelPersist, htr, hmod, modelOf]
    have hst1 : (trainModelPersist fit split (some df) st disk).2.1 =
        (trainModelRun fit split (some df) st).2 := by
      simp [trainModelPersist, htr]
    rw [hdisk, hst1]
    have h2 : (loadModel (some df)
        { pricing_model := some m,
          encoders := some ((trainModelRun fit split (some df) st).2.label_encoders) }
        st0).2.model = ModelSlot.fitted m := rfl
    have h3 : (loadModel (some df)
        { pricing_model := some m,
          encoders := some ((trainModelRun fit split (some df) st).2.label_encoders) }
        st0).2.label_encoders = freshEncoders df := rfl
    refine ⟨rfl, ?_, ?_, ?_⟩
    · rw [h2, hmod]
    · rw [h3, henc]
    · intro p
      exact predictPrice_ignores_metrics ((trainModelRun fit split (some df) st).2) _ p
        (by rw [h2, hmod]) (by rw [h3, henc])

/-- A fit call that always succeeds, producing the base-price-echoing
regressor. -/
def fitConst : List (List ℚ) → List ℚ → Option RegModel :=
  fun _ _ => some sampleModel

/-- A deterministic 80/20 split of a 10-row dataset: first 8 rows train,
last 2 rows evaluate (one admissible outcome of the seeded
`train_test_split`). -/
def splitC10 : List MLRow → List MLRow × List MLRow :=
  fun rs => (rs.take 8, rs.drop 8)

/-- A dataset row with the given name, base price and target price. -/
def mlRowP (name : String) (bp tp : ℚ) : MLRow :=
  { product_name := name, category := "a", base_price := bp,
    inventory_level := 1, competitor_avg_price := bp, sales_last_30_days := 1,
    rating := 4, review_count := 1, season := "s", brand_tier := "b",
    material_cost := 5, target_price := tp }

/-- Ten rows: the train partition is fit perfectly by the base-price
regressor, the eval partition is close but not exact, so the held-out
r2 differs from the full-dataset r2. -/
def dfC10 : MLTable :=
  { rows := [mlRowP "r1" 1 1, mlRowP "r2" 2 2, mlRowP "r3" 3 3,
             mlRowP "r4" 4 4, mlRowP "r5" 5 5, mlRowP "r6" 6 6,
             mlRowP "r7" 7 7, mlRowP "r8" 8 8,
             mlRowP "r9" 2 (11/5), mlRowP "r10" 4 (19/5)] }

def emptyDisk : DiskStore := { pricing_model := none, encoders := none }

def trainOut10 : Option Metrics × PipelineState × DiskStore :=
  trainModelPersist fitConst splitC10 (some dfC10) initState emptyDisk

def loadOut10 : Bool × PipelineState :=
  loadModel (some dfC10) trainOut10.2.2 initState

theorem c10_round_trip_predictions_witness :
    loadOut10.1 = true ∧
    loadOut10.2.model = trainOut10.2.1.model ∧
    loadOut10.2.label_encoders = trainOut10.2.1.label_encoders ∧
    (predictPrice loadOut10.2 sampleInput).map priceView =
      (predictPrice trainOut10.2.1 sampleInput).map priceView := by
  have h := c10_round_trip_predictions fitConst splitC10 dfC10 initState initState
    emptyDisk (by decide)
  exact ⟨h.1, h.2.1, h.2.2.1, h.2.2.2 sampleInput⟩

/-- Claim C10 counterexample: training on `dfC10` and reloading does NOT
reproduce identical prediction responses.  After training, the metrics are
held-out metrics (`training_samples = 8`, r2 = 15/16); after reloading they
are recomputed on the full dataset (`training_samples = 10`, r2 = 585/586),
so the same request gets confidence 0.938 before and 0.95 after the
round-trip - the responses differ even though the predicted price agrees. -/
theorem c10_counterexample :
    trainOut10.1 ≠ none ∧
    loadOut10.1 = true ∧
    (trainOut10.2.1.model_metrics).map (fun mm => mm.training_samples) = some 8 ∧
    (loadOut10.2.model_metrics).map (fun mm => mm.training_samples) = some 10 ∧
    (predictPrice trainOut10.2.1 sampleInput).map (fun r => r.confidence_score) =
      Except.ok (469/500) ∧
    (predictPrice loadOut10.2 sampleInput).map (fun r => r.confidence_score) =
      Except.ok (19/20) ∧
    predictPrice trainOut10.2.1 sampleInput ≠ predictPrice loadOut10.2 sampleInput ∧
    (predictPrice trainOut10.2.1 sampleInput).map (fun r => r.predicted_price) =
      (predictPrice loadOut10.2 sampleInput).map (fun r => r.predicted_price) := by
  exact ⟨by decide, by decide, by decide, by decide, by decide, by decide,
    by decide, by decide⟩

/-- Claim C6: a batch missing required columns is rejected before any merge
with exactly the sorted list of the missing columns, and both the durable
dataset and the module globals are left untouched. -/
theorem c6_missing_columns_reject
    (retrain : Table → PipelineState → Option Metrics × PipelineState)
    (file : Option Table) (st : PipelineState) (batch : Table)
    (h : missingColumns batch ≠ []) :
    uploadData retrain file st batch =
      (UploadOutcome.missingCols (missingColumns batch), file, st) ∧
    ∀ c, c ∈ missingColumns batch ↔ (c ∈ requiredColumns ∧ c ∉ batch.cols) := by
  constructor
  · unfold uploadData
    rw [if_neg h]
  · intro c
    simp [missingColumns, mem_sortStrings, List.mem_filter]

/-- An upload with every required column except `rating`. -/
def batchNoRating : Table :=
  { cols := ["product_id", "product_name", "category", "base_price",
             "inventory_level", "competitor_avg_price", "sales_last_30_days",
             "review_count", "season", "brand_tier", "material_cost",
             "target_price"],
    rows := [] }

/-- A retraining stub that raises (train_model failing), leaving the
globals unchanged. -/
def retr0 : Table → PipelineState → Option Metrics × PipelineState :=
  fun _ s => (none, s)

theorem c6_missing_columns_reject_witness :
    uploadData retr0 none initState batchNoRating =
      (UploadOutcome.missingCols ["rating"], none, initState) ∧
    ("rating" ∈ missingColumns batchNoRating ↔
      ("rating" ∈ requiredColumns ∧ "rating" ∉ batchNoRating.cols)) := by
  have h := c6_missing_columns_reject retr0 none initState batchNoRating (by decide)
  have hm : missingColumns batchNoRating = ["rating"] := by decide
  refine ⟨?_, h.2 "rating"⟩
  rw [← hm]
  exact h.1

/-- A record whose `sales_last_30_days` cell is the unparsable string
"abc"; every other field is valid. -/
def badRow7 : CsvRow :=
  [("product_id", Cell.num 1), ("product_name", Cell.str "p"),
   ("category", Cell.str "a"), ("base_price", Cell.num 10),
   ("inventory_level", Cell.num 1), ("competitor_avg_price", Cell.num 10),
   ("sales_last_30_days", Cell.str "abc"), ("rating", Cell.num 4),
   ("review_count", Cell.num 1), ("season", Cell.str "s"),
   ("brand_tier", Cell.str "b"), ("material_cost", Cell.num 5),
   ("target_price", Cell.num 12)]

def badBatch7 : Table := { cols := requiredColumns, rows := [badRow7] }

/-- Claim C7 evaluated at a failing input: a batch whose
`sales_last_30_days` value cannot be parsed as a number passes validation
with NO errors and is merged into the durable dataset.  The
`pd.to_numeric(..., errors='coerce')` call of line 799 never raises
(contradicting the comment above it) and its result is discarded, and
`sales_last_30_days` appears in neither the non-negativity list nor the
rating range check, so nothing ever inspects the unparsable value. -/
theorem c7_unparsable_value_accepted :
    missingColumns badBatch7 = [] ∧
    validationErrors badBatch7 = [] ∧
    (uploadData retr0 none initState badBatch7).1 =
      UploadOutcome.success
        { new_records := 1, total_records := 1, duplicates_removed := 0,
          existing_records := 0 } none ∧
    (uploadData retr0 none initState badBatch7).2.1 =
      some { cols := requiredColumns, rows := [badRow7] } := by
  exact ⟨by decide, by decide, by decide, by decide⟩

theorem keepLastBy_length {α β : Type} [DecidableEq β] (k : α → β) (l : List α) :
    (keepLastBy k l).length = (l.map k).toFinset.card := by
  induction l with
  | nil => simp [keepLastBy]
  | cons a as ih =>
      by_cases h : k a ∈ as.map k
      · simp [keepLastBy, h, ih, List.toFinset_cons,
          Finset.insert_eq_self.mpr (List.mem_toFinset.mpr h)]
      · simp [keepLastBy, h, ih, List.toFinset_cons,
          Finset.card_insert_of_not_mem (fun hc => h (List.mem_toFinset.mp hc))]

theorem keepLastBy_map_toFinset {α β : Type} [DecidableEq β] (k : α → β) (l : List α) :
    ((keepLastBy k l).map k).toFinset = (l.map k).toFinset := by
  induction l with
  | nil => simp [keepLastBy]
  | cons a as ih =>
      by_cases h : k a ∈ as.map k
      · simp [keepLastBy, h, ih, List.toFinset_cons,
          Finset.insert_eq_self.mpr (List.mem_toFinset.mpr h)]
      · simp [keepLastBy, h, ih, List.toFinset_cons]

theorem sameColSet_refl (l : List String) : sameColSet l l :=
  ⟨fun _ h => h, fun _ h => h⟩

theorem reindexTable_shape (cols : List String) (t b : Table)
    (h : reindexTable cols t = some b) :
    b.cols = cols ∧ b.rows.length = t.rows.length := by
  unfold reindexTable at h
  by_cases hc : ∀ c ∈ cols, c ∈ t.cols
  · rw [if_pos hc] at h
    cases h
    exact ⟨rfl, by simp⟩
  · rw [if_neg hc] at h
    cases h

/-- Replaying the merge construction against the dataset it just produced:
the combined frame of a second identical upload is the saved rows followed
by the same incoming block `B` as in the first upload. -/
theorem mergePlan_replay (file : Option Table) (batch : Table) (plan : MergePlan)
    (h : mergePlan file batch = some plan) :
    ∃ E B, plan.rows = E ++ B ∧ B.length = batch.rows.length ∧
      ∀ R : List CsvRow, mergePlan (some { cols := plan.cols, rows := R }) batch =
        some { cols := plan.cols, rows := R ++ B, existingCount := R.length } := by
  cases file with
  | none =>
      simp only [mergePlan] at h
      cases h
      refine ⟨[], batch.rows, rfl, rfl, ?_⟩
      intro R
      simp [mergePlan, sameColSet_refl]
  | some ex =>
      simp only [mergePlan] at h
      by_cases hs : sameColSet ex.cols batch.cols
      · rw [if_pos hs] at h
        cases h
        refine ⟨ex.rows, batch.rows, rfl, rfl, ?_⟩
        intro R
        simp [mergePlan, hs]
      · rw [if_neg hs] at h
        rcases hb : reindexTable ex.cols batch with _ | b
        · rw [hb] at h
          cases h
        · rw [hb] at h
          cases h
          obtain ⟨hbc, hbl⟩ := reindexTable_shape ex.cols batch b hb
          refine ⟨ex.rows, b.rows, rfl, hbl, ?_⟩
          intro R
          simp [mergePlan, hs, hb]

/-- Claim C8: uploading the same valid batch a second time is idempotent.
If a first upload of `batch` succeeded and produced the saved dataset `T1`
(whose columns include `product_id`, so the merge is keyed on it), then a
second upload of the same batch also succeeds, reports
`duplicates_removed = new_records` (`= len(batch)`), and leaves
`total_records` exactly as after the first upload. -/
theorem c8_second_upload_idempotent
    (retrain retrain2 : Table → PipelineState → Option Metrics × PipelineState)
    (file : Option Table) (st st2 : PipelineState) (batch : Table)
    (stats1 : UploadStats) (m1 : Option Metrics) (T1 : Table) (st1 : PipelineState)
    (h1 : uploadData retrain file st batch =
      (UploadOutcome.success stats1 m1, some T1, st1))
    (hpid : "product_id" ∈ T1.cols) :
    ∃ stats2 m2 file2 st3,
      uploadData retrain2 (some T1) st2 batch =
        (UploadOutcome.success stats2 m2, file2, st3) ∧
      stats2.duplicates_removed = stats2.new_records ∧
      stats2.new_records = batch.rows.length ∧
      stats2.total_records = stats1.total_records := by
  unfold uploadData at h1
  by_cases hmiss : missingColumns batch = []
  case neg =>
    rw [if_neg hmiss] at h1
    exact absurd h1 (by simp)
  rw [if_pos hmiss] at h1
  by_cases hval : validationErrors batch = []
  case neg =>
    rw [if_neg hval] at h1
    exact absurd h1 (by simp)
  rw [if_pos hval] at h1
  rcases hmp : mergePlan file batch with _ | plan
  · rw [hmp] at h1
    exact absurd h1 (by simp)
  rw [hmp] at h1
  rw [Prod.mk.injEq, Prod.mk.injEq] at h1
  obtain ⟨hout, hfile, hst⟩ := h1
  have hT1 : T1 = { cols := plan.cols, rows := mergedRows plan } :=
    (Option.some.inj hfile).symm
  have hstats : stats1 =
      { new_records := batch.rows.length,
        total_records := (mergedRows plan).length,
        duplicates_removed := plan.rows.length - (mergedRows plan).length,
        existing_records := plan.existingCount } := by
    injection hout with hA hB
    exact hA.symm
  subst hT1
  subst hstats
  obtain ⟨E, B, hEB, hBlen, hreplay⟩ := mergePlan_replay file batch plan hmp
  have hpid2 : "product_id" ∈ plan.cols := hpid
  have hmerged1 : mergedRows plan = keepLastBy rowPid plan.rows := by
    unfold mergedRows
    rw [if_pos hpid2]
  have hmp2 : mergePlan (some { cols := plan.cols, rows := mergedRows plan }) batch =
      some { cols := plan.cols, rows := mergedRows plan ++ B,
             existingCount := (mergedRows plan).length } :=
    hreplay (mergedRows plan)
  have hmerged2 :
      mergedRows { cols := plan.cols, rows := mergedRows plan ++ B,
                   existingCount := (mergedRows plan).length } =
        keepLastBy rowPid (mergedRows plan ++ B) := by
    unfold mergedRows
    rw [if_pos hpid2]
  have hkeys : (B.map rowPid).toFinset ⊆ (plan.rows.map rowPid).toFinset := by
    rw [hEB, List.map_append, List.toFinset_append]
    exact Finset.subset_union_right
  have htot : (keepLastBy rowPid (keepLastBy rowPid plan.rows ++ B)).length =
      (keepLastBy rowPid plan.rows).length := by
    rw [keepLastBy_length, keepLastBy_length, List.map_append,
      List.toFinset_append, keepLastBy_map_toFinset,
      Finset.union_eq_left.mpr hkeys]
  have htotal2 :
      (mergedRows { cols := plan.cols, rows := mergedRows plan ++ B,
                    existingCount := (mergedRows plan).length }).length =
        (mergedRows plan).length := by
    rw [hmerged2, hmerged1, htot, ← hmerged1]
  set plan2 : MergePlan :=
    { cols := plan.cols, rows := mergedRows plan ++ B,
      existingCount := (mergedRows plan).length } with hplan2
  refine ⟨{ new_records := batch.rows.length,
            total_records := (mergedRows plan2).length,
            duplicates_removed := plan2.rows.length - (mergedRows plan2).length,
            existing_records := plan2.existingCount },
          (retrain2 { cols := plan2.cols, rows := mergedRows plan2 } st2).1,
          some { cols := plan2.cols, rows := mergedRows plan2 },
          (retrain2 { cols := plan2.cols, rows := mergedRows plan2 } st2).2,
          ?_, ?_, ?_, ?_⟩
  · unfold uploadData
    rw [if_pos hmiss, if_pos hval, hmp2]
  · dsimp only
    rw [htotal2, List.length_append, Nat.add_sub_cancel_left, hBlen]
  · rfl
  · dsimp only
    rw [htotal2]

/-- A fully valid upload record with the given product id and name. -/
def goodRow (pid : ℚ) (name : String) : CsvRow :=
  [("product_id", Cell.num pid), ("product_name", Cell.str name),
   ("category", Cell.str "a"), ("base_price", Cell.num 10),
   ("inventory_level", Cell.num 1), ("competitor_avg_price", Cell.num 10),
   ("sales_last_30_days", Cell.num 1), ("rating", Cell.num 4),
   ("review_count", Cell.num 1), ("season", Cell.str "s"),
   ("brand_tier", Cell.str "b"), ("material_cost", Cell.num 5),
   ("target_price", Cell.num 12)]

def batch8 : Table :=
  { cols := requiredColumns, rows := [goodRow 1 "p1", goodRow 2 "p2"] }

/-- The dataset saved by a first upload of `batch8` onto an empty store. -/
def savedT8 : Table :=
  { cols := requiredColumns, rows := [goodRow 1 "p1", goodRow 2 "p2"] }

theorem c8_second_upload_idempotent_witness :
    ∃ stats2 m2 file2 st3,
      uploadData retr0 (some savedT8) initState batch8 =
        (UploadOutcome.success stats2 m2, file2, st3) ∧
      stats2.duplicates_removed = stats2.new_records ∧
      stats2.new_records = batch8.rows.length ∧
      stats2.total_records =
        ({ new_records := 2, total_records := 2, duplicates_removed := 0,
           existing_records := 0 } : UploadStats).total_records :=
  c8_second_upload_idempotent retr0 retr0 none initState initState batch8
    { new_records := 2, total_records := 2, duplicates_removed := 0,
      existing_records := 0 } none savedT8 initState rfl (by decide)

/-- Claim C9 (amended): when the automatic retraining raised after a
successful merge, the response is the degraded-success payload (upload
stats plus `retraining_status: failed`), the durable dataset keeps the
merged contents (its row count is the reported `total_records` - no
rollback), and the previously active METRICS still serve; the model and
encoder registry of the previous triple, however, are NOT both still in
effect (see the counterexample: the failed run has already republished a
rebuilt registry and an unfitted model). -/
theorem c9_degraded_success
    (fit : List (List ℚ) → List ℚ → Option RegModel)
    (split : List MLRow → List MLRow × List MLRow)
    (file : Option Table) (st : PipelineState) (batch : Table)
    (stats : UploadStats) (file2 : Option Table) (st2 : PipelineState)
    (h : uploadData (fun t s => trainModelRun fit split (toMLTable t) s) file st batch =
      (UploadOutcome.success stats none, file2, st2)) :
    st2.model_metrics = st.model_metrics ∧
    ∃ T : Table, file2 = some T ∧ T.rows.length = stats.total_records := by
  unfold uploadData at h
  by_cases hmiss : missingColumns batch = []
  case neg =>
    rw [if_neg hmiss] at h
    exact absurd h (by simp)
  rw [if_pos hmiss] at h
  by_cases hval : validationErrors batch = []
  case neg =>
    rw [if_neg hval] at h
    exact absurd h (by simp)
  rw [if_pos hval] at h
  rcases hmp : mergePlan file batch with _ | plan
  · rw [hmp] at h
    exact absurd h (by simp)
  · rw [hmp] at h
    rw [Prod.mk.injEq, Prod.mk.injEq] at h
    obtain ⟨hout, hfile, hst⟩ := h
    injection hout with hA hB
    have hmet := trainModelRun_fail_preserves fit split
      (toMLTable { cols := plan.cols, rows := mergedRows plan }) st hB
    constructor
    · rw [← hst]
      exact hmet
    · refine ⟨{ cols := plan.cols, rows := mergedRows plan }, hfile.symm, ?_⟩
      rw [← hA]

/-- The durable dataset before the upload: one product. -/
def T9 : Table := { cols := requiredColumns, rows := [goodRow 1 "p1"] }

/-- The uploaded batch: one new product. -/
def batch9 : Table := { cols := requiredColumns, rows := [goodRow 2 "p2"] }

/-- The whole `/upload-data` call in which the merge succeeds and the
automatic `train_model()` run fails at the fit step. -/
def uploadOut9 : UploadOutcome × Option Table × PipelineState :=
  uploadData (fun t s => trainModelRun fitFail splitAll (toMLTable t) s)
    (some T9) oldState batch9

theorem c9_degraded_success_witness :
    (uploadOut9.2.2).model_metrics = oldState.model_metrics ∧
    ∃ T, uploadOut9.2.1 = some T ∧ T.rows.length =
      ({ new_records := 1, total_records := 2, duplicates_removed := 0,
         existing_records := 1 } : UploadStats).total_records := by
  have h1 : uploadOut9.1 = UploadOutcome.success
      { new_records := 1, total_records := 2, duplicates_removed := 0,
        existing_records := 1 } none := by decide
  have hq : uploadOut9 = (UploadOutcome.success
      { new_records := 1, total_records := 2, duplicates_removed := 0,
        existing_records := 1 } none, uploadOut9.2.1, uploadOut9.2.2) := by
    rw [← h1]
  exact c9_degraded_success fitFail splitAll (some T9) oldState batch9 _ _ _ hq

/-- Claim C9 counterexample: in the very same degraded-success run the
response does report failed retraining with the upload stats, but the
previously active triple is NOT what serves afterwards: the active encoder
registry has been replaced by the one rebuilt from the merged dataset and
the model slot holds the fresh unfitted regressor; only the metrics
survive. -/
theorem c9_counterexample :
    uploadOut9.1 = UploadOutcome.success
      { new_records := 1, total_records := 2, duplicates_removed := 0,
        existing_records := 1 } none ∧
    (uploadOut9.2.2).label_encoders ≠ oldState.label_encoders ∧
    (uploadOut9.2.2).model = ModelSlot.unfitted ∧
    oldState.model ≠ ModelSlot.unfitted ∧
    (uploadOut9.2.2).model_metrics = oldState.model_metrics := by
  refine ⟨by decide, by decide, rfl, ?_, by decide⟩
  intro h
  exact ModelSlot.noConfusion h
